import Mathlib

/-!
Verification of the clouddk-csi-driver Network Storage Lifecycle Engine.

This file gives a shallow embedding, in Lean 4, of the parts of the driver
that the specification claims talk about:

  - the server package resolver (driver/utils: getPackageID);
  - the capacity parser (driver/utils: parseCapacity);
  - the volume-ID decode shared by the controller and node RPCs
    (driver/identity.go, driver/node.go: strings.Split on "-" plus the
    two-part length check and the type switch);
  - the CreateVolume capability validation and dispatch
    (driver/identity.go: CreateVolume) against the access modes the driver
    advertises (driver/driver.go: NewDriver);
  - the network-storage orchestration (driver/network_storage.go:
    createNetworkStorage, loadNetworkStorage, Delete) with the external
    world (IaaS REST API, SSH, SFTP) represented by an explicit environment
    of step outcomes, and the nil driver back-reference of NetworkStorage
    (never assigned by its constructors) modelled explicitly, with the
    resulting nil-pointer panics as outcomes;
  - the process configuration built by main.go.

Go integers are modelled as Lean Int (the driver only ever handles values
far below 2^53, where the float64 arithmetic used by the Go code for
Ceil/Max is exact). Go strings are modelled as Lean String, except in the
volume-ID decode where List Char is used so that the split can be reasoned
about structurally. Fallible calls return Except or Option; effectful
steps take their outcome from an environment record.
-/

namespace CloudDK

/-! ### Constants (driver/utils.go, driver/identity.go) -/

def defaultVolumeCapacityInBytes : Int := 17179869184

def maximumVolumeCapacityInBytes : Int := 8796093022208

def minimumVolumeCapacityInBytes : Int := 1073741824

/-- The fixed 10-entry server package table (driver/utils.go,
`serverPackageIDs`). -/
def serverPackageIDs : List String :=
  [ "ac949a1cb4731d"
  , "89833c1dfa7010"
  , "0469d586374e76"
  , "e991abd8ef15c7"
  , "489b7df86d4b76"
  , "9559dbb4b71c45"
  , "ebf313a9994c1e"
  , "86fa7f6209ba2a"
  , "25848db6009838"
  , "115f1d99e8e9e4" ]

/-! ### Package resolver (driver/utils.go: getPackageID)

The Go function first sets each index to -1 and then assigns a bucket;
the -1 is dead (every path either assigns a bucket or returns an error),
so the indices are modelled as Nat. -/

/-- The memory bucket ladder of getPackageID. -/
def memoryPackageIndex (memory : Int) : Option Nat :=
  if memory ≤ 512 then some 0
  else if memory ≤ 1024 then some 1
  else if memory ≤ 2048 then some 2
  else if memory ≤ 4096 then some 3
  else if memory ≤ 6144 then some 4
  else if memory ≤ 8192 then some 5
  else if memory ≤ 16384 then some 6
  else if memory ≤ 32768 then some 7
  else if memory ≤ 65536 then some 8
  else if memory ≤ 98304 then some 9
  else none

/-- The processors bucket ladder of getPackageID. -/
def processorsPackageIndex (processors : Int) : Option Nat :=
  if processors ≤ 1 then some 0
  else if processors ≤ 2 then some 3
  else if processors ≤ 3 then some 4
  else if processors ≤ 4 then some 5
  else if processors ≤ 6 then some 6
  else if processors ≤ 8 then some 7
  else if processors ≤ 10 then some 8
  else if processors ≤ 12 then some 9
  else none

/-- packageIndex := int(math.Max(memoryPackageIndex, processorsPackageIndex));
none on either axis is the corresponding fmt.Errorf return. -/
def resolvePackageIndex (memory processors : Int) : Option Nat :=
  match memoryPackageIndex memory, processorsPackageIndex processors with
  | some mi, some pi => some (Nat.max mi pi)
  | _, _ => none

/-- getPackageID: resolve both buckets, take the max index, bounds-check it
against the table and return the table entry. -/
def getPackageID (memory processors : Int) : Except String String :=
  match memoryPackageIndex memory with
  | none => .error "No supported packages provide the requested amount of memory"
  | some mi =>
    match processorsPackageIndex processors with
    | none => .error "No supported packages provide the requested number of processors"
    | some pi =>
      let packageIndex := Nat.max mi pi
      if packageIndex < serverPackageIDs.length then
        .ok (serverPackageIDs.getD packageIndex "")
      else .error "Invalid package index"

/-! ### Capacity parser (driver/utils.go: parseCapacity) -/

/-- Exact value of int(math.Ceil(x / 1073741824)) for the nonnegative
int64 values the parser feeds it (float64 is exact below 2^53). -/
def ceilGiB (x : Int) : Int := (x + 1073741823) / 1073741824

/-- capacityRequired after the defaulting step of parseCapacity: when
neither bound is defined (> 0), the default capacity is substituted. -/
def effectiveRequired (requiredBytes limitBytes : Int) : Int :=
  if ¬0 < limitBytes ∧ ¬0 < requiredBytes then defaultVolumeCapacityInBytes
  else requiredBytes

/-- parseCapacity: validates a capacity range and returns the chosen size in
GiB. The definedness flags are computed from the original request values;
the min/max/ordering checks and the final ceil(max(...)) use the
defaulted required value, exactly as the Go locals do. -/
def parseCapacity (requiredBytes limitBytes : Int) : Except String Int :=
  if 0 < requiredBytes ∧ effectiveRequired requiredBytes limitBytes < minimumVolumeCapacityInBytes then
    .error "The required capacity cannot be less than the minimum supported volume capacity"
  else if 0 < limitBytes ∧ limitBytes < minimumVolumeCapacityInBytes then
    .error "The capacity limit cannot be less than the minimum supported volume capacity"
  else if 0 < requiredBytes ∧ effectiveRequired requiredBytes limitBytes > maximumVolumeCapacityInBytes then
    .error "The required capacity cannot be greater than the maximum supported volume capacity"
  else if 0 < limitBytes ∧ limitBytes > maximumVolumeCapacityInBytes then
    .error "The capacity limit cannot be greater than the maximum supported volume capacity"
  else if 0 < requiredBytes ∧ 0 < limitBytes ∧ effectiveRequired requiredBytes limitBytes > limitBytes then
    .error "The required capacity is greater than the capacity limit"
  else
    .ok (ceilGiB (max (effectiveRequired requiredBytes limitBytes) limitBytes))

/-- The capacity rules as the specification states them (spec 4.6), used to
compare parseCapacity against its stated behavior: default when both
bounds are undefined, OutOfRange below MIN, above MAX or when
required exceeds limit, otherwise ceil(max(required, limit) / 1 GiB). -/
def capacityRulesSpec (requiredBytes limitBytes : Int) : Option Int :=
  if ¬0 < requiredBytes ∧ ¬0 < limitBytes then
    some (ceilGiB defaultVolumeCapacityInBytes)
  else if (0 < requiredBytes ∧ requiredBytes < minimumVolumeCapacityInBytes)
       ∨ (0 < limitBytes ∧ limitBytes < minimumVolumeCapacityInBytes) then
    none
  else if requiredBytes > maximumVolumeCapacityInBytes
       ∨ limitBytes > maximumVolumeCapacityInBytes then
    none
  else if 0 < requiredBytes ∧ 0 < limitBytes ∧ requiredBytes > limitBytes then
    none
  else
    some (ceilGiB (max requiredBytes limitBytes))

/-! ### Spec-side bucket ladders (spec 4.4) for comparing getPackageID
against its stated behavior. -/

/-- The memory bucket table exactly as the specification lists it. -/
def memoryBucketsSpec : List (Int × Nat) :=
  [(512, 0), (1024, 1), (2048, 2), (4096, 3), (6144, 4),
   (8192, 5), (16384, 6), (32768, 7), (65536, 8), (98304, 9)]

/-- The processors bucket table exactly as the specification lists it. -/
def processorBucketsSpec : List (Int × Nat) :=
  [(1, 0), (2, 3), (3, 4), (4, 5), (6, 6), (8, 7), (10, 8), (12, 9)]

/-- First bucket whose bound is not exceeded, as the spec tables read. -/
def bucketIndexSpec : List (Int × Nat) → Int → Option Nat
  | [], _ => none
  | (bound, idx) :: rest, x => if x ≤ bound then some idx else bucketIndexSpec rest x

theorem memoryPackageIndex_eq_spec (m : Int) :
    memoryPackageIndex m = bucketIndexSpec memoryBucketsSpec m := rfl

theorem processorsPackageIndex_eq_spec (p : Int) :
    processorsPackageIndex p = bucketIndexSpec processorBucketsSpec p := rfl

/-- Arithmetic characterization of the memory bucket ladder. -/
theorem memoryPackageIndex_char (m : Int) (i : Nat)
    (h : memoryPackageIndex m = some i) :
    (i = 0 ∧ m ≤ 512) ∨ (i = 1 ∧ 512 < m ∧ m ≤ 1024)
    ∨ (i = 2 ∧ 1024 < m ∧ m ≤ 2048) ∨ (i = 3 ∧ 2048 < m ∧ m ≤ 4096)
    ∨ (i = 4 ∧ 4096 < m ∧ m ≤ 6144) ∨ (i = 5 ∧ 6144 < m ∧ m ≤ 8192)
    ∨ (i = 6 ∧ 8192 < m ∧ m ≤ 16384) ∨ (i = 7 ∧ 16384 < m ∧ m ≤ 32768)
    ∨ (i = 8 ∧ 32768 < m ∧ m ≤ 65536) ∨ (i = 9 ∧ 65536 < m ∧ m ≤ 98304) := by
  unfold memoryPackageIndex at h
  repeat' split at h
  all_goals simp_all

/-- Arithmetic characterization of the processors bucket ladder. -/
theorem processorsPackageIndex_char (p : Int) (i : Nat)
    (h : processorsPackageIndex p = some i) :
    (i = 0 ∧ p ≤ 1) ∨ (i = 3 ∧ 1 < p ∧ p ≤ 2)
    ∨ (i = 4 ∧ 2 < p ∧ p ≤ 3) ∨ (i = 5 ∧ 3 < p ∧ p ≤ 4)
    ∨ (i = 6 ∧ 4 < p ∧ p ≤ 6) ∨ (i = 7 ∧ 6 < p ∧ p ≤ 8)
    ∨ (i = 8 ∧ 8 < p ∧ p ≤ 10) ∨ (i = 9 ∧ 10 < p ∧ p ≤ 12) := by
  unfold processorsPackageIndex at h
  repeat' split at h
  all_goals simp_all

theorem memoryPackageIndex_none_ge (m : Int) (h : memoryPackageIndex m = none) :
    98304 < m := by
  unfold memoryPackageIndex at h
  repeat' split at h
  all_goals simp_all

theorem processorsPackageIndex_none_ge (p : Int) (h : processorsPackageIndex p = none) :
    12 < p := by
  unfold processorsPackageIndex at h
  repeat' split at h
  all_goals simp_all

theorem memoryPackageIndex_bounds (m : Int) (h : m ≤ 98304) :
    ∃ i, memoryPackageIndex m = some i ∧ i ≤ 9 := by
  cases hk : memoryPackageIndex m with
  | some i => exact ⟨i, rfl, by have := memoryPackageIndex_char m i hk; omega⟩
  | none => exact absurd h (by have := memoryPackageIndex_none_ge m hk; omega)

theorem processorsPackageIndex_bounds (p : Int) (h : p ≤ 12) :
    ∃ i, processorsPackageIndex p = some i ∧ i ≤ 9 := by
  cases hk : processorsPackageIndex p with
  | some i => exact ⟨i, rfl, by have := processorsPackageIndex_char p i hk; omega⟩
  | none => exact absurd h (by have := processorsPackageIndex_none_ge p hk; omega)

theorem memoryPackageIndex_none (m : Int) (h : 98304 < m) :
    memoryPackageIndex m = none := by
  cases hk : memoryPackageIndex m with
  | some i => exact absurd h (by have := memoryPackageIndex_char m i hk; omega)
  | none => rfl

theorem processorsPackageIndex_none (p : Int) (h : 12 < p) :
    processorsPackageIndex p = none := by
  cases hk : processorsPackageIndex p with
  | some i => exact absurd h (by have := processorsPackageIndex_char p i hk; omega)
  | none => rfl

theorem memoryPackageIndex_mono {m1 m2 : Int} {i1 i2 : Nat} (h : m1 ≤ m2)
    (h1 : memoryPackageIndex m1 = some i1) (h2 : memoryPackageIndex m2 = some i2) :
    i1 ≤ i2 := by
  have c1 := memoryPackageIndex_char m1 i1 h1
  have c2 := memoryPackageIndex_char m2 i2 h2
  omega

theorem processorsPackageIndex_mono {p1 p2 : Int} {i1 i2 : Nat} (h : p1 ≤ p2)
    (h1 : processorsPackageIndex p1 = some i1) (h2 : processorsPackageIndex p2 = some i2) :
    i1 ≤ i2 := by
  have c1 := processorsPackageIndex_char p1 i1 h1
  have c2 := processorsPackageIndex_char p2 i2 h2
  omega

/-- C1: parseCapacity behaves exactly as the capacity rules of the
specification state, for every capacity range (CSI capacity values are
nonnegative; 0 means undefined): both bounds undefined gives the
16 GiB default, a defined bound below 1 GiB or above 8 TiB or
required exceeding a defined limit is an error, and otherwise the
size in GiB is ceil(max(required, limit) / 1 GiB). -/
theorem parseCapacity_matches_capacity_rules (r l : Int) (hr : 0 ≤ r) (hl : 0 ≤ l) :
    (parseCapacity r l).toOption = capacityRulesSpec r l := by
  unfold parseCapacity capacityRulesSpec effectiveRequired
    defaultVolumeCapacityInBytes minimumVolumeCapacityInBytes maximumVolumeCapacityInBytes
  split_ifs <;> simp_all [Except.toOption] <;> try omega
  all_goals (congr 1 <;> omega)

/-- Witness for C1 at the all-undefined capacity range. -/
theorem parseCapacity_matches_capacity_rules_witness :
    (parseCapacity 0 0).toOption = capacityRulesSpec 0 0 :=
  parseCapacity_matches_capacity_rules 0 0 (by omega) (by omega)

/-- C7: getPackageID returns the package table entry at
max(memoryIdx, processorsIdx) per the spec bucket ladders, errors above
the top bucket on either axis, resolves (2048, 4) to the entry at
index 5 and rejects (100000, 1). -/
theorem getPackageID_spec (memory processors : Int) :
    (memory ≤ 98304 → processors ≤ 12 →
      ∃ mi pi, bucketIndexSpec memoryBucketsSpec memory = some mi
        ∧ bucketIndexSpec processorBucketsSpec processors = some pi
        ∧ getPackageID memory processors = .ok (serverPackageIDs.getD (Nat.max mi pi) ""))
    ∧ (memory > 98304 ∨ processors > 12 →
        (getPackageID memory processors).toOption = none)
    ∧ getPackageID 2048 4 = .ok (serverPackageIDs.getD 5 "")
    ∧ (getPackageID 100000 1).toOption = none := by
  refine ⟨?_, ?_, rfl, rfl⟩
  · intro h1 h2
    obtain ⟨mi, hmi, hmi9⟩ := memoryPackageIndex_bounds memory h1
    obtain ⟨pi, hpi, hpi9⟩ := processorsPackageIndex_bounds processors h2
    refine ⟨mi, pi, ?_, ?_, ?_⟩
    · rw [← memoryPackageIndex_eq_spec]; exact hmi
    · rw [← processorsPackageIndex_eq_spec]; exact hpi
    · have hmax : Nat.max mi pi < serverPackageIDs.length := by
        have hlen : serverPackageIDs.length = 10 := rfl
        rw [hlen]
        exact Nat.max_lt.mpr ⟨by omega, by omega⟩
      simp [getPackageID, hmi, hpi, hmax]
  · intro h
    rcases h with h | h
    · simp [getPackageID, memoryPackageIndex_none memory (by omega), Except.toOption]
    · cases hm : memoryPackageIndex memory with
      | none => simp [getPackageID, hm, Except.toOption]
      | some mi =>
        simp [getPackageID, hm, processorsPackageIndex_none processors (by omega),
          Except.toOption]

/-- Witness for C7: the in-range branch at (2048, 4) and the error branch
at (100000, 1). -/
theorem getPackageID_spec_witness :
    (∃ mi pi, bucketIndexSpec memoryBucketsSpec 2048 = some mi
      ∧ bucketIndexSpec processorBucketsSpec 4 = some pi
      ∧ getPackageID 2048 4 = .ok (serverPackageIDs.getD (Nat.max mi pi) ""))
    ∧ (getPackageID 100000 1).toOption = none :=
  ⟨(getPackageID_spec 2048 4).1 (by omega) (by omega),
   (getPackageID_spec 100000 1).2.1 (Or.inl (by omega))⟩

/-- C8: For all in-range inputs the resolver yields a valid index into
the 10-entry package table, and the resolved index is componentwise
monotone in (memory, processors). -/
theorem resolvePackageIndex_valid_and_monotone :
    (∀ memory processors : Int, memory ≤ 98304 → processors ≤ 12 →
      ∃ i, resolvePackageIndex memory processors = some i ∧ i < serverPackageIDs.length)
    ∧ (∀ (m1 p1 m2 p2 : Int) (i1 i2 : Nat), m1 ≤ m2 → p1 ≤ p2 →
      resolvePackageIndex m1 p1 = some i1 → resolvePackageIndex m2 p2 = some i2 →
      i1 ≤ i2) := by
  constructor
  · intro memory processors h1 h2
    obtain ⟨mi, hmi, hmi9⟩ := memoryPackageIndex_bounds memory h1
    obtain ⟨pi, hpi, hpi9⟩ := processorsPackageIndex_bounds processors h2
    refine ⟨Nat.max mi pi, ?_, ?_⟩
    · simp [resolvePackageIndex, hmi, hpi]
    · have hlen : serverPackageIDs.length = 10 := rfl
      rw [hlen]
      exact Nat.max_lt.mpr ⟨by omega, by omega⟩
  · intro m1 p1 m2 p2 i1 i2 hm hp h3 h4
    unfold resolvePackageIndex at h3 h4
    rcases hA1 : memoryPackageIndex m1 with _ | mi1 <;> rw [hA1] at h3 <;>
      rcases hB1 : processorsPackageIndex p1 with _ | pi1 <;> rw [hB1] at h3 <;>
      simp only [Option.some.injEq, reduceCtorEq] at h3
    rcases hA2 : memoryPackageIndex m2 with _ | mi2 <;> rw [hA2] at h4 <;>
      rcases hB2 : processorsPackageIndex p2 with _ | pi2 <;> rw [hB2] at h4 <;>
      simp only [Option.some.injEq, reduceCtorEq] at h4
    have l1 := memoryPackageIndex_mono hm hA1 hA2
    have l2 := processorsPackageIndex_mono hp hB1 hB2
    subst h3
    subst h4
    exact Nat.max_le.mpr
      ⟨l1.trans (Nat.le_max_left mi2 pi2), l2.trans (Nat.le_max_right mi2 pi2)⟩

/-- Witness for C8: validity at (4096, 2) and monotonicity from
(2048, 1) to (4096, 2). -/
theorem resolvePackageIndex_valid_and_monotone_witness :
    (∃ i, resolvePackageIndex 4096 2 = some i ∧ i < serverPackageIDs.length)
    ∧ resolvePackageIndex 2048 1 = some 2
    ∧ resolvePackageIndex 4096 2 = some 3
    ∧ (2 : Nat) ≤ 3 :=
  ⟨resolvePackageIndex_valid_and_monotone.1 4096 2 (by omega) (by omega),
   rfl, rfl,
   resolvePackageIndex_valid_and_monotone.2 2048 1 4096 2 2 3
     (by omega) (by omega) rfl rfl⟩

/-! ### Process configuration (main.go, driver/driver.go) -/

/-- driver.Configuration. -/
structure Configuration where
  clientEndpoint : String
  clientKey : String
  endpoint : String
  nodeID : String
  privateKey : String
  publicKey : String
  serverMemory : Int
  serverProcessors : Int
deriving DecidableEq

/-- os.Getenv: the empty string when the variable is unset. -/
def getenvD (env : String → Option String) (k : String) : String :=
  (env k).getD ""

/-- The driver.Configuration value built by main.go from the process
environment (flags default to the environment values and are not
overridden here). base64 decoding of the SSH keys is abstracted as b64;
a decode failure is the log.Fatalln exit, modelled as none. main.go
never reads CLOUDDK_SERVER_MEMORY or CLOUDDK_SERVER_PROCESSORS and never
assigns ServerMemory or ServerProcessors, so both fields keep the Go
zero value 0. -/
def mainConfiguration (env : String → Option String)
    (b64 : String → Option String) : Option Configuration :=
  match (if getenvD env "CLOUDDK_SSH_PRIVATE_KEY" = "" then some ""
         else b64 (getenvD env "CLOUDDK_SSH_PRIVATE_KEY")),
        (if getenvD env "CLOUDDK_SSH_PUBLIC_KEY" = "" then some ""
         else b64 (getenvD env "CLOUDDK_SSH_PUBLIC_KEY")) with
  | some privateKey, some publicKey =>
    some { clientEndpoint :=
             if getenvD env "CLOUDDK_API_ENDPOINT" = "" then "https://api.cloud.dk/v1"
             else getenvD env "CLOUDDK_API_ENDPOINT"
         , clientKey := getenvD env "CLOUDDK_API_KEY"
         , endpoint :=
             if getenvD env "CLOUDDK_CSI_ENDPOINT" = ""
             then "unix:///var/lib/kubelet/plugins/csi.cloud.dk/csi.sock"
             else getenvD env "CLOUDDK_CSI_ENDPOINT"
         , nodeID := getenvD env "CLOUDDK_NODE_ID"
         , privateKey := privateKey
         , publicKey := publicKey
         , serverMemory := 0
         , serverProcessors := 0 }
  | _, _ => none

/-- NewDriver resolves the server package from the configured memory and
processors (driver/driver.go). -/
def newDriverPackageID (c : Configuration) : Except String String :=
  getPackageID c.serverMemory c.serverProcessors

/-- C9 counterexample: With every environment variable unset,
main.go leaves ServerMemory and ServerProcessors at 0 (it never reads
CLOUDDK_SERVER_MEMORY or CLOUDDK_SERVER_PROCESSORS), so the resolved
package is the table entry at index 0, not index 5; moreover even
(4096, 2) resolves to index max(3, 3) = 3, not 5. -/
theorem serverDefaults_counterexample :
    (mainConfiguration (fun _ => none) some).map Configuration.serverMemory = some 0
    ∧ (mainConfiguration (fun _ => none) some).map Configuration.serverProcessors = some 0
    ∧ (mainConfiguration (fun _ => none) some).map newDriverPackageID
        = some (.ok (serverPackageIDs.getD 0 ""))
    ∧ resolvePackageIndex 4096 2 = some 3
    ∧ resolvePackageIndex 0 0 = some 0
    ∧ serverPackageIDs.getD 0 "" ≠ serverPackageIDs.getD 5 ""
    ∧ (3 : Nat) ≠ 5 := by
  refine ⟨rfl, rfl, rfl, rfl, rfl, ?_, by omega⟩
  decide

/-- C9 amended: Whatever the environment holds, the configuration
built by main.go has serverMemory = 0 and serverProcessors = 0 (the two
server-sizing variables are never read), and the package resolved at
driver initialization is getPackageID(0, 0), the table entry at
index 0. -/
theorem mainConfiguration_server_defaults (env : String → Option String)
    (b64 : String → Option String) (c : Configuration)
    (h : mainConfiguration env b64 = some c) :
    c.serverMemory = 0 ∧ c.serverProcessors = 0
    ∧ newDriverPackageID c = .ok (serverPackageIDs.getD 0 "") := by
  unfold mainConfiguration at h
  split at h
  · injection h with h
    subst h
    exact ⟨rfl, rfl, rfl⟩
  · exact absurd h (by simp)

/-- Witness for C9 (amended) at the empty environment. -/
theorem mainConfiguration_server_defaults_witness :
    ∃ c : Configuration, mainConfiguration (fun _ => none) some = some c
      ∧ c.serverMemory = 0 ∧ c.serverProcessors = 0
      ∧ newDriverPackageID c = .ok (serverPackageIDs.getD 0 "") := by
  refine ⟨_, rfl, mainConfiguration_server_defaults (fun _ => none) some _ rfl⟩

/-! ### CreateVolume capability validation and dispatch
(driver/identity.go: CreateVolume; driver/driver.go: NewDriver) -/

/-- csi.VolumeCapability_AccessMode_Mode values used by the driver. -/
inductive AccessMode where
  | unknown
  | singleNodeWriter
  | singleNodeReaderOnly
  | multiNodeReaderOnly
  | multiNodeSingleWriter
  | multiNodeMultiWriter
deriving DecidableEq

/-- The access modes advertised by NewDriver (driver/driver.go,
VolumeCapabilities): only MULTI_NODE_MULTI_WRITER. -/
def driverVolumeCapabilities : List AccessMode := [.multiNodeMultiWriter]

/-- The switch in CreateVolume that marks a capability as requiring
network storage. -/
def isMultiNodeMode (m : AccessMode) : Bool :=
  match m with
  | .multiNodeMultiWriter => true
  | .multiNodeReaderOnly => true
  | .multiNodeSingleWriter => true
  | _ => false

/-- The capability loop of CreateVolume: every requested capability must
match a supported access mode (otherwise InvalidArgument, modelled as
none); multi-node capabilities set the network-storage flag. -/
def checkVolumeCapabilities : List AccessMode → Bool → Option Bool
  | [], createNS => some createNS
  | c :: rest, createNS =>
    if driverVolumeCapabilities.contains c then
      checkVolumeCapabilities rest (createNS || isMultiNodeMode c)
    else none

/-- gRPC status codes surfaced by the driver. -/
inductive GrpcCode where
  | invalidArgument
  | notFound
  | alreadyExists
  | outOfRange
  | unimplemented
  | internal
deriving DecidableEq

/-- Where CreateVolume ends up before any storage is touched. -/
inductive CreateRoute where
  | invalidArgument
  | outOfRange
  | blockStorage (size : Int)
  | networkStorage (size : Int)
deriving DecidableEq

/-- The validation and dispatch of CreateVolume (driver/identity.go):
name and capabilities must be present, content sources are rejected,
every capability must be supported, the capacity range is parsed, and
the request is routed to network storage exactly when a multi-node
capability was requested. -/
def createVolumeRoute (name : String) (caps : List AccessMode)
    (hasContentSource : Bool) (requiredBytes limitBytes : Int) : CreateRoute :=
  if name = "" then .invalidArgument
  else if caps.isEmpty then .invalidArgument
  else if hasContentSource then .invalidArgument
  else
    match checkVolumeCapabilities caps false with
    | none => .invalidArgument
    | some createNS =>
      match parseCapacity requiredBytes limitBytes with
      | .error _ => .outOfRange
      | .ok size => if createNS then .networkStorage size else .blockStorage size

/-- The gRPC code CreateVolume returns without calling the network-storage
engine: the block-storage branch is CreateVolumeBlockStorage, which is
Unimplemented; the network-storage branch proceeds (none). -/
def createVolumeImmediateCode : CreateRoute → Option GrpcCode
  | .invalidArgument => some .invalidArgument
  | .outOfRange => some .outOfRange
  | .blockStorage _ => some .unimplemented
  | .networkStorage _ => none

/-- C3 counterexample: CreateVolume with capability list
[SINGLE_NODE_WRITER] returns InvalidArgument (the capability is not
among the driver-supported access modes), not Unimplemented. -/
theorem createVolume_singleNodeWriter_counterexample :
    createVolumeImmediateCode
        (createVolumeRoute "pvc-1" [AccessMode.singleNodeWriter] false 0 0)
      = some GrpcCode.invalidArgument
    ∧ some GrpcCode.invalidArgument ≠ some GrpcCode.unimplemented := by
  exact ⟨rfl, by decide⟩

/-- C3 amended: Every CreateVolume request whose capability list is
[SINGLE_NODE_WRITER] returns InvalidArgument ("Unsupported volume
capabilities"), because the only supported access mode is
MULTI_NODE_MULTI_WRITER; the block-storage Unimplemented path is not
reached for it. -/
theorem createVolume_singleNodeWriter_invalidArgument (name : String)
    (hasContentSource : Bool) (requiredBytes limitBytes : Int) :
    createVolumeImmediateCode
        (createVolumeRoute name [AccessMode.singleNodeWriter] hasContentSource
          requiredBytes limitBytes)
      = some GrpcCode.invalidArgument := by
  unfold createVolumeRoute
  split_ifs <;> rfl

/-! ### Volume-ID decode (driver/identity.go: DeleteVolume,
ControllerPublishVolume, ControllerUnpublishVolume,
ValidateVolumeCapabilities; driver/node.go: NodeStageVolume,
NodeUnstageVolume)

All six RPCs run the same three steps on the request volume ID:
reject the empty string, strings.Split on "-" and reject unless exactly
two parts result, then switch on the first part ("bs" block storage,
"ns" network storage, anything else InvalidArgument). Strings are
List Char here; splitOnChar is Go strings.Split for a one-character
separator. -/

/-- Go strings.Split with a single-character separator:
splits at every occurrence, keeps empty parts, and returns one part
for the empty input. -/
def splitOnChar (sep : Char) : List Char → List (List Char)
  | [] => [[]]
  | c :: rest =>
    if c = sep then [] :: splitOnChar sep rest
    else
      match splitOnChar sep rest with
      | [] => [[c]]
      | part :: parts => (c :: part) :: parts

/-- Where the shared decode sends a request. -/
inductive VolumeRoute where
  | invalidArgument
  | blockStorage (id : List Char)
  | networkStorage (id : List Char)
deriving DecidableEq

/-- The shared volume-ID decode and type switch. -/
def routeVolumeID (volumeID : List Char) : VolumeRoute :=
  if volumeID = [] then .invalidArgument
  else
    let volumeInfo := splitOnChar '-' volumeID
    if volumeInfo.length ≠ 2 then .invalidArgument
    else if volumeInfo.headD [] = ['b', 's'] then
      .blockStorage ((volumeInfo.drop 1).headD [])
    else if volumeInfo.headD [] = ['n', 's'] then
      .networkStorage ((volumeInfo.drop 1).headD [])
    else .invalidArgument

theorem splitOnChar_not_mem {sep : Char} {u : List Char} (h : sep ∉ u) :
    splitOnChar sep u = [u] := by
  induction u with
  | nil => rfl
  | cons c rest ih =>
    simp only [List.mem_cons, not_or] at h
    obtain ⟨h1, h2⟩ := h
    unfold splitOnChar
    rw [if_neg (fun hc => h1 hc.symm), ih h2]

theorem splitOnChar_ns (u : List Char) (h : '-' ∉ u) :
    splitOnChar '-' ('n' :: 's' :: '-' :: u) = [['n', 's'], u] := by
  unfold splitOnChar
  rw [if_neg (by decide)]
  unfold splitOnChar
  rw [if_neg (by decide)]
  unfold splitOnChar
  rw [if_pos rfl, splitOnChar_not_mem h]

/-- C2 counterexample: The volume ID "ns-" (empty part after the
separator) is not rejected: it passes the length-2 check of the shared
decode and is routed to the network-storage operation with the empty
cloud ID. -/
theorem routeVolumeID_ns_empty_accepted :
    routeVolumeID (String.toList "ns-") = .networkStorage []
    ∧ routeVolumeID (String.toList "ns-") ≠ .invalidArgument := by
  exact ⟨rfl, by decide⟩

/-- C2 amended: The shared decode accepts an ID only when splitting it
on every separator yields exactly two parts (the string contains
exactly one separator); the parts are not required to be non-empty:
"ns-" ++ id is routed to the network-storage operation for every
separator-free id including the empty one, while "ns-abc-def" (more
than one separator) and every other ID that does not split into
exactly two parts is rejected with InvalidArgument before any volume
operation is attempted. -/
theorem routeVolumeID_decode_spec :
    (∀ s : List Char, routeVolumeID s ≠ .invalidArgument →
      (splitOnChar '-' s).length = 2)
    ∧ (∀ u : List Char, '-' ∉ u →
      routeVolumeID (['n', 's', '-'] ++ u) = .networkStorage u)
    ∧ routeVolumeID (String.toList "ns-abc-def") = .invalidArgument
    ∧ (∀ s : List Char, (splitOnChar '-' s).length ≠ 2 →
      routeVolumeID s = .invalidArgument) := by
  have hnot : ∀ s : List Char, (splitOnChar '-' s).length ≠ 2 →
      routeVolumeID s = .invalidArgument := by
    intro s h
    simp [routeVolumeID, h]
  refine ⟨?_, ?_, rfl, hnot⟩
  · intro s h
    by_cases hl : (splitOnChar '-' s).length = 2
    · exact hl
    · exact absurd (hnot s hl) h
  · intro u h
    simp [routeVolumeID, splitOnChar_ns u h]

/-- Witness for C2 (amended): the empty id after "ns-" is accepted, a
one-part ID is rejected, and an accepted ID has exactly two parts. -/
theorem routeVolumeID_decode_spec_witness :
    routeVolumeID (['n', 's', '-'] ++ ([] : List Char)) = .networkStorage []
    ∧ routeVolumeID ['x'] = .invalidArgument
    ∧ (splitOnChar '-' (String.toList "ns-x")).length = 2 :=
  ⟨routeVolumeID_decode_spec.2.1 [] (by decide),
   routeVolumeID_decode_spec.2.2.2 ['x'] (by decide),
   routeVolumeID_decode_spec.1 (String.toList "ns-x") (by decide)⟩

/-! ### Network storage orchestration (driver/network_storage.go)

The IaaS REST API, SSH and SFTP are external; each step the program can
reach takes its outcome from an explicit environment record, and the
embedding records which requests were issued.

The NetworkStorage struct holds a driver back-reference (field
driver *Driver) that every method dereferences as
ns.driver.Configuration (Wait at network_storage.go:930, Delete at
:728, CreateSSHClient at :668, the public-key upload at :403). The
composite literals that construct NetworkStorage at
network_storage.go:266 (createNetworkStorage) and :491
(loadNetworkStorage) never set this field, so it stays nil and each of
those methods panics with a nil-pointer dereference when first called.
The back-reference is modelled as an Option of the engine
configuration (the only part the methods dereference), none being the
Go nil pointer, and the panic as an explicit outcome. -/

/-- One network interface of a server body (only the address list is
relevant; the code reads IPAddresses[0].Address). -/
structure NetworkInterface where
  ipAddresses : List String
deriving DecidableEq

/-- The decoded clouddk.ServerBody fields used by the engine. -/
structure ServerData where
  identifier : String
  networkInterfaces : List NetworkInterface
  disks : List (String × Int)
deriving DecidableEq

/-- The NetworkStorage volume handler: the driver back-reference (none is
the nil pointer the constructors leave behind), server id, first IP,
size in GiB. -/
structure NetworkStorage where
  driver : Option Configuration
  id : String
  ip : String
  size : Int
deriving DecidableEq

/-- NetworkInterfaces[0].IPAddresses[0].Address (reached only after the
non-empty interface check; missing addresses are defaulted rather than
modelling the Go index panic, which no claim concerns). -/
def firstAddress (server : ServerData) : String :=
  ((server.networkInterfaces.headD { ipAddresses := [] }).ipAddresses).headD ""

/-- hostname := fmt.Sprintf(nsFormatHostname, name). -/
def nsHostname (name : String) : String := "k8s-network-storage-" ++ name

/-- The disk label of the data disk. -/
def nsDiskLabel : String := "k8s-network-storage"

/-- Outcomes of the external steps createNetworkStorage can actually
reach, in the order the code runs them. The later steps (transaction
wait, SSH, SFTP, uploads, bootstrap, EnsureDisk) appear in the source
but are unreachable: the first of them to run dereferences the nil
driver back-reference and panics, so they need no outcomes here. -/
structure CreateEnv where
  /-- getServerByHostname returns err == nil, i.e. a server with the
  given hostname exists. -/
  serverExistsWithHostname : String → Bool
  /-- json.NewEncoder(...).Encode(body) succeeds. -/
  encodeOk : Bool
  /-- DoClientRequest POST cloudservers succeeds. -/
  postOk : Bool
  /-- json.NewDecoder(res.Body).Decode(&server): the decoded server body,
  or none when decoding fails. -/
  decodeResult : Option ServerData

/-- The error returns of createNetworkStorage the program can reach. -/
inductive CreateExit where
  | alreadyExists
  | encodeFailed
  | postFailed
  | decodeFailed
deriving DecidableEq

/-- How a call to createNetworkStorage ends: a volume, an error return,
or a runtime panic. -/
inductive CreateOutcome where
  | ok (ns : NetworkStorage)
  | error (e : CreateExit)
  | panics
deriving DecidableEq

/-- What a call to createNetworkStorage did: how it ended, the exists
flag it returned, whether the POST cloudservers request was issued, and
whether ns.Delete() was entered for compensation. -/
structure CreateResult where
  result : CreateOutcome
  serverExists : Bool
  postIssued : Bool
  deleteInvoked : Bool

/-- createNetworkStorage (driver/network_storage.go:221): hostname
pre-existence check, request encoding, server creation POST, response
decoding — and then the NetworkStorage literal at :266 omits the
driver field. With no network interfaces the compensating ns.Delete()
is invoked and panics dereferencing the nil back-reference (:728);
otherwise the first provisioning step ns.Wait() panics the same way
(:930). No later step, none of the compensated error returns, and not
the success return can be reached. -/
def createNetworkStorage (env : CreateEnv) (name : String) (size : Int) : CreateResult :=
  if env.serverExistsWithHostname (nsHostname name) then
    { result := .error .alreadyExists, serverExists := true, postIssued := false,
      deleteInvoked := false }
  else if !env.encodeOk then
    { result := .error .encodeFailed, serverExists := false, postIssued := false,
      deleteInvoked := false }
  else if !env.postOk then
    { result := .error .postFailed, serverExists := false, postIssued := true,
      deleteInvoked := false }
  else
    match env.decodeResult with
    | none =>
      { result := .error .decodeFailed, serverExists := false, postIssued := true,
        deleteInvoked := false }
    | some server =>
      if server.networkInterfaces.isEmpty then
        { result := .panics, serverExists := false, postIssued := true,
          deleteInvoked := true }
      else
        { result := .panics, serverExists := false, postIssued := true,
          deleteInvoked := false }

/-- Whether a create outcome is a returned volume. -/
def createSucceeded : CreateOutcome → Bool
  | .ok _ => true
  | _ => false

/-- CSI volume payload of a CreateVolume response. -/
structure CsiVolume where
  capacityBytes : Int
  volumeId : String
deriving DecidableEq

/-- Result of an RPC handler: a response, a gRPC error, or a crash. -/
inductive RpcOutcome (α : Type) where
  | ok (value : α)
  | err (code : GrpcCode)
  | panics
deriving DecidableEq

/-- CreateVolumeNetworkStorage (driver/identity.go): map the engine result
to AlreadyExists / Internal, or build the volume response with
capacityBytes = size GiB and volumeId = "ns-" ++ id; a panic in the
engine crashes the handler. -/
def CreateVolumeNetworkStorage (env : CreateEnv) (name : String) (size : Int) :
    RpcOutcome CsiVolume :=
  let r := createNetworkStorage env name size
  match r.result with
  | .ok ns => .ok { capacityBytes := ns.size * 1073741824, volumeId := "ns-" ++ ns.id }
  | .error _ => if r.serverExists then .err .alreadyExists else .err .internal
  | .panics => .panics

/-- C5: When a server with the derived hostname
"k8s-network-storage-" ++ name already exists, createNetworkStorage
fails before issuing the server-creation POST, and the RPC maps the
failure to AlreadyExists; hence a second CreateVolume with the same
name creates no further server. -/
theorem createNetworkStorage_alreadyExists (env : CreateEnv) (name : String) (size : Int)
    (h : env.serverExistsWithHostname (nsHostname name) = true) :
    (createNetworkStorage env name size).result = .error .alreadyExists
    ∧ (createNetworkStorage env name size).serverExists = true
    ∧ (createNetworkStorage env name size).postIssued = false
    ∧ CreateVolumeNetworkStorage env name size = .err .alreadyExists := by
  simp [createNetworkStorage, CreateVolumeNetworkStorage, h]

/-- An environment in which the hostname lookup always finds a server. -/
def envHostnameTaken : CreateEnv :=
  { serverExistsWithHostname := fun _ => true
  , encodeOk := true, postOk := true
  , decodeResult := none }

/-- Witness for C5 on a concrete environment and name. -/
theorem createNetworkStorage_alreadyExists_witness :
    (createNetworkStorage envHostnameTaken "pvc-1" 16).postIssued = false
    ∧ CreateVolumeNetworkStorage envHostnameTaken "pvc-1" 16 = .err .alreadyExists := by
  have h := createNetworkStorage_alreadyExists envHostnameTaken "pvc-1" 16 rfl
  exact ⟨h.2.2.1, h.2.2.2⟩

/-- An environment in which the server is created and its body decodes
with one network interface: the post-create phase is reached. -/
def envServerCreated : CreateEnv :=
  { serverExistsWithHostname := fun _ => false
  , encodeOk := true, postOk := true
  , decodeResult := some { identifier := "abc123"
                         , networkInterfaces := [{ ipAddresses := ["192.0.2.10"] }]
                         , disks := [] } }

/-- As envServerCreated, but the decoded body has no network interfaces,
so the compensating ns.Delete() itself is invoked. -/
def envServerCreatedNoInterfaces : CreateEnv :=
  { serverExistsWithHostname := fun _ => false
  , encodeOk := true, postOk := true
  , decodeResult := some { identifier := "abc123"
                         , networkInterfaces := []
                         , disks := [] } }

/-- C6: Once the cloud server has been created and its body decoded,
createNetworkStorage panics on the nil driver back-reference — at
ns.Wait() on the normal path, and inside the compensating ns.Delete()
on the missing-interfaces path — instead of compensating and returning
an error; and no call of createNetworkStorage ever returns a volume. -/
theorem createNetworkStorage_post_create_panics :
    (createNetworkStorage envServerCreated "pvc-1" 16).result = .panics
    ∧ (createNetworkStorage envServerCreated "pvc-1" 16).postIssued = true
    ∧ (createNetworkStorage envServerCreatedNoInterfaces "pvc-1" 16).result = .panics
    ∧ (createNetworkStorage envServerCreatedNoInterfaces "pvc-1" 16).deleteInvoked = true
    ∧ ∀ (env : CreateEnv) (name : String) (size : Int),
        createSucceeded (createNetworkStorage env name size).result = false := by
  refine ⟨rfl, rfl, rfl, rfl, ?_⟩
  intro env name size
  unfold createNetworkStorage
  cases hd : env.decodeResult with
  | none => split_ifs <;> rfl
  | some server =>
    split_ifs <;> try rfl
    cases hi : server.networkInterfaces.isEmpty <;> simp [hi, createSucceeded]

/-! ### Load and delete (driver/network_storage.go: loadNetworkStorage,
Delete; driver/identity.go: DeleteVolumeNetworkStorage) -/

/-- An HTTP response as seen by the engine: final status plus the decoded
server body (none models a JSON decode failure). -/
structure HttpResponse where
  status : Nat
  serverBody : Option ServerData
deriving DecidableEq

/-- What DoClientRequest produced for a GET: success (err == nil),
an error with a last response attached (unexpected final status), or a
transport error with no HTTP response at all (res == nil). -/
inductive ApiResult where
  | success (res : HttpResponse)
  | httpError (res : HttpResponse)
  | transportError
deriving DecidableEq

/-- Result of loadNetworkStorage: the handler, an error with the
dedicated notFound flag, or a crash. -/
inductive LoadOutcome where
  | ok (ns : NetworkStorage)
  | failure (notFound : Bool)
  | panics
deriving DecidableEq

/-- The size of the disk labeled k8s-network-storage, zero if absent. -/
def labeledDiskSize (disks : List (String × Int)) : Int :=
  match disks.find? (fun d => d.1 == nsDiskLabel) with
  | some d => d.2
  | none => 0

/-- loadNetworkStorage: GET cloudservers/id. On error the code evaluates
res.StatusCode == 404; when the error was a transport error,
res is a nil pointer and that evaluation is a nil-pointer
dereference, modelled as LoadOutcome.panics. On success the
NetworkStorage literal at network_storage.go:491 omits the driver
field, so the returned handler carries a nil back-reference. -/
def loadNetworkStorage (r : ApiResult) : LoadOutcome :=
  match r with
  | .transportError => .panics
  | .httpError res => .failure (res.status == 404)
  | .success res =>
    match res.serverBody with
    | none => .failure false
    | some server =>
      if server.networkInterfaces.isEmpty then .failure false
      else .ok { driver := none, id := server.identifier, ip := firstAddress server
               , size := labeledDiskSize server.disks }

/-- C10: loadNetworkStorage reports not-found exactly when the GET
failed with final HTTP status 404; but on a transport error that
produced no HTTP response at all, the code dereferences the nil
response (res.StatusCode) and crashes instead of returning an
ordinary error. -/
theorem loadNetworkStorage_notFound_channel :
    loadNetworkStorage .transportError = .panics
    ∧ (∀ res : HttpResponse,
        loadNetworkStorage (.httpError res) = .failure (res.status == 404))
    ∧ loadNetworkStorage (.httpError { status := 404, serverBody := none })
        = .failure true
    ∧ loadNetworkStorage (.httpError { status := 500, serverBody := none })
        = .failure false :=
  ⟨rfl, fun _ => rfl, rfl, rfl⟩

/-- One request to the Cloud API Client, with the retry settings the call
site passes. -/
structure ApiCall where
  method : String
  path : String
  accept : List Nat
  retries : Nat
  delaySeconds : Nat
deriving DecidableEq

/-- The DELETE request the body of NetworkStorage.Delete builds: path
cloudservers/id, accepted statuses 200 and 404, 6 attempts, 10 s
backoff (network_storage.go:727). -/
def deleteRequest (id : String) : ApiCall :=
  { method := "DELETE", path := "cloudservers/" ++ id
  , accept := [200, 404], retries := 6, delaySeconds := 10 }

/-- Modelled from the spec: the Cloud API Client (spec 4.1) is external
code (the clouddk client package); per the spec it retries and then
succeeds exactly when the final HTTP status is among the accepted
status codes, and a transport failure with no final status is an
error. -/
def doClientRequestSucceeds (finalStatus : Option Nat) (call : ApiCall) : Bool :=
  match finalStatus with
  | some s => call.accept.contains s
  | none => false

/-- How a call into the engine ends: a value, an error, or a panic. -/
inductive EngineResult (α : Type) where
  | ok (value : α)
  | err (msg : String)
  | panics
deriving DecidableEq

/-- NetworkStorage.Delete (network_storage.go:724): the request arguments
are read from ns.driver.Configuration, so with the nil back-reference
the method panics before any request is issued; with the
back-reference set it issues the DELETE and propagates its outcome. -/
def deleteNetworkStorage (finalStatus : Option Nat) (ns : NetworkStorage) :
    EngineResult Unit :=
  match ns.driver with
  | none => .panics
  | some _ =>
    if doClientRequestSucceeds finalStatus (deleteRequest ns.id) then .ok ()
    else .err "Failed to delete server"

/-- DeleteVolumeNetworkStorage (driver/identity.go): a load error with
notFound set is success with an empty response; any other load error is
Internal; otherwise ns.Delete() runs — and a panic in load or delete
crashes the handler. -/
def DeleteVolumeNetworkStorage (load : LoadOutcome) (deleteStatus : Option Nat) :
    RpcOutcome Unit :=
  match load with
  | .panics => .panics
  | .failure notFound => if notFound then .ok () else .err .internal
  | .ok ns =>
    match deleteNetworkStorage deleteStatus ns with
    | .ok _ => .ok ()
    | .err _ => .err .internal
    | .panics => .panics

/-- A successful GET whose body decodes with one network interface. -/
def serverFoundResponse : HttpResponse :=
  { status := 200
  , serverBody := some { identifier := "abc123"
                       , networkInterfaces := [{ ipAddresses := ["192.0.2.10"] }]
                       , disks := [] } }

/-- C4: the call site of the DELETE passes accept statuses 200 and 404,
6 attempts and 10-second backoff, and with the back-reference set a
final 404 would be success — but every NetworkStorage the program
constructs has the nil back-reference, so Delete panics before issuing
the request, as does DeleteVolume of a volume whose load succeeded;
only the load-not-found half holds: DeleteVolume of an ns volume whose
load sees a 404 response returns success with an empty response. -/
theorem deleteNetworkStorage_nil_driver :
    (∀ id : String, deleteRequest id
      = { method := "DELETE", path := "cloudservers/" ++ id
        , accept := [200, 404], retries := 6, delaySeconds := 10 })
    ∧ (∀ (d : Option Nat) (id ip : String) (size : Int),
        deleteNetworkStorage d { driver := none, id := id, ip := ip, size := size }
          = .panics)
    ∧ (∀ (c : Configuration) (id ip : String) (size : Int),
        deleteNetworkStorage (some 404) { driver := some c, id := id, ip := ip, size := size }
          = .ok ())
    ∧ (∀ d : Option Nat,
        DeleteVolumeNetworkStorage (loadNetworkStorage (.success serverFoundResponse)) d
          = .panics)
    ∧ (∀ (body : Option ServerData) (d : Option Nat),
        DeleteVolumeNetworkStorage
          (loadNetworkStorage (.httpError { status := 404, serverBody := body })) d
          = .ok ()) :=
  ⟨fun _ => rfl, fun _ _ _ _ => rfl, fun _ _ _ _ => rfl, fun _ => rfl, fun _ _ => rfl⟩

end CloudDK
